import Mathlib

/-!
Verification of the `VkVideoDecoder` decode-session orchestration layer
(`src/vk_video_decoder/libs/VkVideoDecoder/VkVideoDecoder.cpp`).

The C++ code is shallowly embedded: machine integers are modelled as `Nat`
(unsigned) or `Int` (signed) with explicit wrap-around (`% 2^32`) where the
source performs 32-bit arithmetic; external Vulkan calls (capability queries,
session creation, the hardware compile/update of parameter objects) are
modelled by their observable results, passed in as explicit inputs; the
fallible queries return `Option`.  The `VK_EXT_video_decode_vp9` /
`VK_EXT_video_decode_av1` preprocessor branches are not compiled in the
default build of this file and are therefore absent from the model.
-/

namespace VkVideoDecoder

/-! ### Codec flag values (numeric values of `VkVideoCodecOperationFlagBitsKHR`) -/

def VK_VIDEO_CODEC_OPERATION_NONE_KHR : Nat := 0
def VK_VIDEO_CODEC_OPERATION_DECODE_H264_BIT_KHR : Nat := 1
def VK_VIDEO_CODEC_OPERATION_DECODE_H265_BIT_KHR : Nat := 2

/-- Reinterpret a 32-bit unsigned value as a signed 32-bit `int`, as the
    C cast `(int)(width * height)` does (lines 97). -/
def int32ofUInt32 (n : Nat) : Int :=
  let r := n % 4294967296
  if r < 2147483648 then (r : Int) else (r : Int) - 4294967296

/-- Reinterpret a signed value as `uint32_t`, as the C cast
    `(uint32_t)(right - left)` does (line 128). -/
def uint32ofInt (x : Int) : Nat :=
  (x % 4294967296).toNat

/-- The H.265 `maxDpbSize` computation of `GetNumDecodeSurfaces`
    (lines 95-106).  The source's `maxLumaPS >> 2`, `maxLumaPS >> 1` and
    `(3 * maxLumaPS) >> 2` are written as exact divisions of the positive
    constant. -/
def h265MaxDpbSize (picSizeInSamplesY : Int) : Int :=
  let maxLumaPS : Int := 35651584
  let maxDpbPicBuf : Int := 6
  if picSizeInSamplesY ≤ maxLumaPS / 4 then maxDpbPicBuf * 4
  else if picSizeInSamplesY ≤ maxLumaPS / 2 then maxDpbPicBuf * 2
  else if picSizeInSamplesY ≤ 3 * maxLumaPS / 4 then maxDpbPicBuf * 4 / 3
  else maxDpbPicBuf

/-- Which of the four area tiers of the H.265 branch a picture size falls in
    (same branch conditions as `h265MaxDpbSize`). -/
def h265Tier (picSizeInSamplesY : Int) : Nat :=
  let maxLumaPS : Int := 35651584
  if picSizeInSamplesY ≤ maxLumaPS / 4 then 0
  else if picSizeInSamplesY ≤ maxLumaPS / 2 then 1
  else if picSizeInSamplesY ≤ 3 * maxLumaPS / 4 then 2
  else 3

/-- The DPB tier of a coded resolution, as selected by the H.265 branch. -/
def dpbTier (width height : Nat) : Nat :=
  h265Tier (int32ofUInt32 (width * height))

/-- `VkVideoDecoder::GetNumDecodeSurfaces` (lines 77-111).
    All four arguments are `uint32_t`; the H.264 branch result
    `minNumDecodeSurfaces + 4 + 4` wraps at 2^32. -/
def GetNumDecodeSurfaces (codec minNumDecodeSurfaces width height : Nat) : Nat :=
  if codec = VK_VIDEO_CODEC_OPERATION_DECODE_H264_BIT_KHR then
    -- H264: minNumDecodeSurfaces plus 4 for non-reference render target plus 4 for display
    (minNumDecodeSurfaces + 4 + 4) % 4294967296
  else if codec = VK_VIDEO_CODEC_OPERATION_DECODE_H265_BIT_KHR then
    -- ref HEVC spec: A.4.1 General tier and level limits
    let picSizeInSamplesY : Int := int32ofUInt32 (width * height)
    let maxDpbSize : Int := h265MaxDpbSize picSizeInSamplesY
    (min maxDpbSize 16 + 4).toNat
  else
    8

/-! ### `GetVideoCodecString` (lines 32-56) -/

/-- The `aCodecName` table of `GetVideoCodecString`, with the VP9/AV1 entries
    absent because their guarding preprocessor symbols are not defined in the
    default build. -/
def aCodecName : List (Nat × String) :=
  [(VK_VIDEO_CODEC_OPERATION_NONE_KHR, "None"),
   (VK_VIDEO_CODEC_OPERATION_DECODE_H264_BIT_KHR, "AVC/H.264"),
   (VK_VIDEO_CODEC_OPERATION_DECODE_H265_BIT_KHR, "H.265/HEVC")]

/-- `VkVideoDecoder::GetVideoCodecString` (lines 49-55).  The loop searches
    for an index `i` with a matching `eCodec`, but the array access performed
    on a hit is `aCodecName[codec].name`, indexed by the codec VALUE, not by
    `i`; an out-of-bounds access is modelled as `none`. -/
def GetVideoCodecString (codec : Nat) : Option String :=
  match aCodecName.findIdx? (fun e => e.1 = codec) with
  | some _ => (aCodecName[codec]?).map (fun e => e.2)
  | none => some "Unknown"

end VkVideoDecoder

namespace VkVideoDecoder

/-! ### `StartVideoSequence` (lines 118-296) -/

/-- The fields of `VkParserDetectedVideoFormat` consumed by
    `StartVideoSequence`.  The `display_area` coordinates are signed 32-bit
    integers; the rest are unsigned. -/
structure VkParserDetectedVideoFormat where
  codec : Nat
  minNumDecodeSurfaces : Nat
  coded_width : Nat
  coded_height : Nat
  display_left : Int
  display_top : Int
  display_right : Int
  display_bottom : Int
  maxNumDpbSlots : Nat
deriving DecidableEq

/-- The results of the `VulkanVideoCapabilities::GetVideoDecodeCapabilities`
    query that `StartVideoSequence` consumes (lines 202-231). -/
structure VkVideoCapabilitiesModel where
  minCodedExtentWidth : Nat
  minCodedExtentHeight : Nat
  pictureAccessGranularityWidth : Nat
  pictureAccessGranularityHeight : Nat
deriving DecidableEq

/-- The decoder state read and written by `StartVideoSequence`.
    `m_videoSession` holds the identity of the current video session
    (`none` before the first creation); `nextSessionId` numbers session
    creations; `imagePoolConfig` records the last
    `m_videoFrameBuffer->InitImagePool` request (surface count and aligned
    extent). -/
structure DecodeSessionState where
  m_numDecodeSurfaces : Nat
  m_videoSession : Option Nat
  nextSessionId : Nat
  m_resetDecoder : Bool
  m_videoFormat : Option VkParserDetectedVideoFormat
  imagePoolConfig : Option (Nat × Nat × Nat)
  m_maxDecodeFramesCount : Nat
deriving DecidableEq

/-- `VkVideoDecoder::StartVideoSequence` (lines 118-296).  The external
    queries are passed in by their results: `isCodecSupported` is the result
    of `VulkanVideoCapabilities::IsCodecTypeSupported` (line 173), `caps` of
    `GetVideoDecodeCapabilities` (line 204, `none` on failure), and
    `supportedFormats` of `GetSupportedVideoFormats` (line 215, `none` on
    failure); `sessionIsCompatible` is the result of
    `m_videoSession->IsCompatible` (line 234).  Returns the `int32_t` result
    and the new state. -/
def StartVideoSequence (st : DecodeSessionState) (fmt : VkParserDetectedVideoFormat)
    (isCodecSupported : Bool) (caps : Option VkVideoCapabilitiesModel)
    (supportedFormats : Option (Nat × Nat)) (sessionIsCompatible : Bool) :
    Int × DecodeSessionState :=
  -- lines 128-129: image extent is the max of the display rectangle and the coded extent
  let imageExtentW0 := max (uint32ofInt (fmt.display_right - fmt.display_left)) fmt.coded_width
  let imageExtentH0 := max (uint32ofInt (fmt.display_bottom - fmt.display_top)) fmt.coded_height
  -- line 149: running maximum of the negotiated decode-surface count
  let numDecodeSurfaces := max st.m_numDecodeSurfaces
      (GetNumDecodeSurfaces fmt.codec fmt.minNumDecodeSurfaces fmt.coded_width fmt.coded_height)
  let st1 := { st with m_numDecodeSurfaces := numDecodeSurfaces }
  -- lines 173-179: unsupported codec aborts with -1
  if isCodecSupported = false then (-1, st1)
  else
    match caps with
    -- lines 202-211: failed capabilities query aborts with -1
    | none => (-1, st1)
    | some caps =>
      match supportedFormats with
      -- lines 213-223: failed formats query aborts with -1
      | none => (-1, st1)
      | some _formats =>
        -- lines 225-231: clamp to the minimum coded extent and align up to the
        -- picture-access granularity (a power of two) with 32-bit bit masking
        let w1 := max imageExtentW0 caps.minCodedExtentWidth
        let h1 := max imageExtentH0 caps.minCodedExtentHeight
        let alignWidth := caps.pictureAccessGranularityWidth - 1
        let w2 := (w1 + alignWidth) &&& (4294967295 ^^^ alignWidth)
        let alignHeight := caps.pictureAccessGranularityHeight - 1
        let h2 := (h1 + alignHeight) &&& (4294967295 ^^^ alignHeight)
        -- lines 233-255: create a new session when none exists or the current
        -- one is incompatible; creation makes a codec reset pending
        let st2 :=
          if st1.m_videoSession.isNone || !sessionIsCompatible then
            { st1 with m_videoSession := some st1.nextSessionId,
                       nextSessionId := st1.nextSessionId + 1,
                       m_resetDecoder := true }
          else st1
        -- lines 257-296: resize the image pool, record the frame-data count
        -- and persist the negotiated format
        let st3 := { st2 with imagePoolConfig := some (numDecodeSurfaces, w2, h2),
                              m_maxDecodeFramesCount := numDecodeSurfaces,
                              m_videoFormat := some fmt }
        ((numDecodeSurfaces : Int), st3)

/-- One `StartVideoSequence` call description: the detected format together
    with the results of the external queries consumed by the call. -/
structure SequenceStartCall where
  fmt : VkParserDetectedVideoFormat
  isCodecSupported : Bool
  caps : Option VkVideoCapabilitiesModel
  supportedFormats : Option (Nat × Nat)
  sessionIsCompatible : Bool

/-- Iterate `StartVideoSequence` over a list of sequence-start events. -/
def runStartVideoSequence (st : DecodeSessionState) (calls : List SequenceStartCall) :
    DecodeSessionState :=
  calls.foldl
    (fun s c => (StartVideoSequence s c.fmt c.isCodecSupported c.caps
                   c.supportedFormats c.sessionIsCompatible).2) st

/-! ### `UpdatePictureParameters` and the parameter-set graph (lines 298-419) -/

/-- `StdVideoPictureParametersSet::ItemType`, restricted to the kinds the
    switch in `UpdatePictureParameters` handles. -/
inductive ItemType
  | PPS_TYPE
  | SPS_TYPE
  | VPS_TYPE
deriving DecidableEq, Repr

/-- A `StdVideoPictureParametersSet` node as `UpdatePictureParameters` sees
    it: `nodeId` is the node's own kind-scoped id (`GetPpsId`/`GetSpsId`/
    `GetVpsId` with the `isNodeId` flag true); `parentId` is the referenced
    parent id (the SPS id stored in a PPS, the VPS id stored in an SPS —
    unused for a VPS); `m_parent` is the parent link, an index into the node
    store. -/
structure StdVideoPictureParametersSet where
  m_itemType : ItemType
  nodeId : Int
  parentId : Int
  m_updateSequenceCount : Nat
  m_parent : Option Nat
deriving DecidableEq, Repr

/-- The graph state of `VkVideoDecoder` used by `UpdatePictureParameters`:
    the node store (C++ nodes are heap objects held by shared pointers;
    here nodes live in `nodes` and are referenced by index), the "last seen
    node per kind" table `m_lastPictParamsQueue`, its id table
    `m_lastIdInQueue`, and the pending flush queue (indexes into `nodes`). -/
structure ParamGraphState where
  nodes : List StdVideoPictureParametersSet
  m_lastPictParamsQueue : ItemType → Option Nat
  m_lastIdInQueue : ItemType → Int
  m_pictureParametersQueue : List Nat

/-- The empty graph state (`m_lastIdInQueue` initialized to -1). -/
def initialParamGraphState : ParamGraphState :=
  { nodes := []
    m_lastPictParamsQueue := fun _ => none
    m_lastIdInQueue := fun _ => -1
    m_pictureParametersQueue := [] }

/-- Modelled from the spec: updating the "last-seen" slot for the new node's
    kind (§4.3 step 4) is performed by `VkVideoDecoder.h`, which is not part
    of the analyzed source file; the spec says the slot for kind K is
    overwritten by each new arrival of kind K.  Also appends the node to the
    store and pushes it onto the pending queue
    (`AddPictureParametersToQueue`, lines 383-387). -/
def recordNewNode (st : ParamGraphState) (node : StdVideoPictureParametersSet) :
    ParamGraphState :=
  let newIdx := st.nodes.length
  { nodes := st.nodes ++ [node]
    m_lastPictParamsQueue := fun t =>
      if t = node.m_itemType then some newIdx else st.m_lastPictParamsQueue t
    m_lastIdInQueue := fun t =>
      if t = node.m_itemType then node.nodeId else st.m_lastIdInQueue t
    m_pictureParametersQueue := st.m_pictureParametersQueue ++ [newIdx] }

/-- The linking part of `VkVideoDecoder::UpdatePictureParameters`
    (lines 298-381): create the new node, link its parent from the last-seen
    node of the expected parent kind when the referenced id matches, and
    retroactively relink the last-seen node of the expected child kind to the
    new node when that child's stored parent id equals the new node's id. -/
def UpdatePictureParameters (st : ParamGraphState) (itemType : ItemType)
    (nodeId parentId : Int) (updateSequenceCount : Nat) : ParamGraphState :=
  let newIdx := st.nodes.length
  let node0 : StdVideoPictureParametersSet :=
    { m_itemType := itemType, nodeId := nodeId, parentId := parentId
      m_updateSequenceCount := updateSequenceCount, m_parent := none }
  match itemType with
  | ItemType.PPS_TYPE =>
    -- lines 314-327: parent kind SPS; link to the last-seen SPS on id match
    let node1 :=
      match st.m_lastPictParamsQueue ItemType.SPS_TYPE with
      | some j =>
        if parentId = st.m_lastIdInQueue ItemType.SPS_TYPE then
          { node0 with m_parent := some j }
        else node0
      | none => node0
    recordNewNode st node1
  | ItemType.SPS_TYPE =>
    -- lines 328-351: child kind PPS (retroactive relink), parent kind VPS
    let nodes1 :=
      match st.m_lastPictParamsQueue ItemType.PPS_TYPE with
      | some j =>
        match st.nodes[j]? with
        | some child =>
          if child.parentId = nodeId then
            st.nodes.set j { child with m_parent := some newIdx }
          else st.nodes
        | none => st.nodes
      | none => st.nodes
    let node1 :=
      match st.m_lastPictParamsQueue ItemType.VPS_TYPE with
      | some k =>
        if parentId = st.m_lastIdInQueue ItemType.VPS_TYPE then
          { node0 with m_parent := some k }
        else node0
      | none => node0
    recordNewNode { st with nodes := nodes1 } node1
  | ItemType.VPS_TYPE =>
    -- lines 353-367: child kind SPS (retroactive relink), no parent kind
    let nodes1 :=
      match st.m_lastPictParamsQueue ItemType.SPS_TYPE with
      | some j =>
        match st.nodes[j]? with
        | some child =>
          if child.parentId = nodeId then
            st.nodes.set j { child with m_parent := some newIdx }
          else st.nodes
        | none => st.nodes
      | none => st.nodes
    recordNewNode { st with nodes := nodes1 } node0

/-! ### `VkParserVideoPictureParameters` and `AddPictureParameters`
    (lines 421-509 and 1108-1297) -/

/-- A `VkParserVideoPictureParameters` object: a process-wide identity
    `m_Id` and the per-kind sets of compiled parameter-set ids
    (`m_vpsIdsUsed`, `m_spsIdsUsed`, `m_ppsIdsUsed`, bitsets in the C++). -/
structure VkParserVideoPictureParameters where
  m_Id : Nat
  m_vpsIdsUsed : Finset Int
  m_spsIdsUsed : Finset Int
  m_ppsIdsUsed : Finset Int
deriving DecidableEq

/-- `VkParserVideoPictureParameters::Create` (lines 1108-1215), modelled on
    the success path of `vkCreateVideoSessionParametersKHR`: the per-kind
    compiled-id sets are copied from the template object when one is given
    (lines 1192-1196), the id of each present node is marked used
    (lines 1198-1209; `PopulateH264UpdateFields`/`PopulateH265UpdateFields`
    return the node's own id), and the new object's identity is the
    incremented process-wide counter `m_currentId` (line 1211).  Returns the
    object and the new counter. -/
def VkParserVideoPictureParametersCreate (m_currentId : Nat)
    (vps sps pps : Option StdVideoPictureParametersSet)
    (pTemplatePictureParameters : Option VkParserVideoPictureParameters) :
    VkParserVideoPictureParameters × Nat :=
  let base : VkParserVideoPictureParameters :=
    match pTemplatePictureParameters with
    | some t =>
      { m_Id := 0, m_vpsIdsUsed := t.m_vpsIdsUsed
        m_spsIdsUsed := t.m_spsIdsUsed, m_ppsIdsUsed := t.m_ppsIdsUsed }
    | none => { m_Id := 0, m_vpsIdsUsed := ∅, m_spsIdsUsed := ∅, m_ppsIdsUsed := ∅ }
  let b1 := match vps with
    | some n => { base with m_vpsIdsUsed := insert n.nodeId base.m_vpsIdsUsed }
    | none => base
  let b2 := match sps with
    | some n => { b1 with m_spsIdsUsed := insert n.nodeId b1.m_spsIdsUsed }
    | none => b1
  let b3 := match pps with
    | some n => { b2 with m_ppsIdsUsed := insert n.nodeId b2.m_ppsIdsUsed }
    | none => b2
  ({ b3 with m_Id := m_currentId + 1 }, m_currentId + 1)

/-- `VkParserVideoPictureParameters::Update` (lines 1217-1297), modelled on
    the success path of `vkUpdateVideoSessionParametersKHR`: the id of each
    present node is marked used in the existing object's sets
    (lines 1278-1291). -/
def VkParserVideoPictureParametersUpdate (obj : VkParserVideoPictureParameters)
    (vps sps pps : Option StdVideoPictureParametersSet) :
    VkParserVideoPictureParameters :=
  let b1 := match vps with
    | some n => { obj with m_vpsIdsUsed := insert n.nodeId obj.m_vpsIdsUsed }
    | none => obj
  let b2 := match sps with
    | some n => { b1 with m_spsIdsUsed := insert n.nodeId b1.m_spsIdsUsed }
    | none => b1
  match pps with
  | some n => { b2 with m_ppsIdsUsed := insert n.nodeId b2.m_ppsIdsUsed }
  | none => b2

/-- `VkVideoDecoder::CheckStdObjectBeforeUpdate` (lines 421-444): a present
    node needs a brand-new object when no current compiled object exists or
    the node's update-sequence counter is nonzero. -/
def CheckStdObjectBeforeUpdate (stdPictureParametersSet : Option StdVideoPictureParametersSet)
    (m_currentPictureParameters : Option VkParserVideoPictureParameters) : Bool :=
  match stdPictureParametersSet with
  | none => false
  | some n => m_currentPictureParameters.isNone || decide (0 < n.m_updateSequenceCount)

/-- The decoder state read and written by `AddPictureParameters`:
    the process-wide identity counter `m_currentId` (line 1045), the current
    compiled object, and — for stating the identity invariants only, not part
    of the C++ state — the history of every object `Create` has returned, in
    creation order. -/
structure PictureParametersState where
  m_currentId : Nat
  m_currentPictureParameters : Option VkParserVideoPictureParameters
  createdObjects : List VkParserVideoPictureParameters
deriving DecidableEq

/-- The initial state: `m_currentId = 0` (line 1045), no current object. -/
def initialPictureParametersState : PictureParametersState :=
  { m_currentId := 0, m_currentPictureParameters := none, createdObjects := [] }

/-- `VkVideoDecoder::AddPictureParameters` (lines 474-509): null when no node
    of any kind is present; otherwise create a brand-new object (seeded from
    the current object as template and installed as the new current object)
    when any present node passes `CheckStdObjectBeforeUpdate`, else update
    the existing current object in place. -/
def AddPictureParameters (st : PictureParametersState)
    (vps sps pps : Option StdVideoPictureParametersSet) :
    Option VkParserVideoPictureParameters × PictureParametersState :=
  if pps = none ∧ sps = none ∧ vps = none then (none, st)
  else
    let createNewObject :=
      CheckStdObjectBeforeUpdate pps st.m_currentPictureParameters
      || CheckStdObjectBeforeUpdate sps st.m_currentPictureParameters
      || CheckStdObjectBeforeUpdate vps st.m_currentPictureParameters
    if createNewObject then
      let created := VkParserVideoPictureParametersCreate st.m_currentId vps sps pps
          st.m_currentPictureParameters
      (some created.1,
       { m_currentId := created.2
         m_currentPictureParameters := some created.1
         createdObjects := st.createdObjects ++ [created.1] })
    else
      match st.m_currentPictureParameters with
      | some cur =>
        let updated := VkParserVideoPictureParametersUpdate cur vps sps pps
        (none, { st with m_currentPictureParameters := some updated })
      | none => (none, st)
        -- unreachable: when a node is present and no current object exists,
        -- CheckStdObjectBeforeUpdate returns true and createNewObject holds

/-- A flushed batch of up to one node per kind, as `FlushPictureParametersQueue`
    (lines 389-419) passes to `AddPictureParameters`. -/
structure ParamBatch where
  vps : Option StdVideoPictureParametersSet
  sps : Option StdVideoPictureParametersSet
  pps : Option StdVideoPictureParametersSet

/-- Iterate `AddPictureParameters` over a list of batches. -/
def runAddPictureParameters (st : PictureParametersState) (batches : List ParamBatch) :
    PictureParametersState :=
  batches.foldl (fun s b => (AddPictureParameters s b.vps b.sps b.pps).2) st

/-! ### `GetBitstreamBuffer` pool-reuse path (lines 916-986) -/

/-- `VulkanBitstreamBuffer::CopyDataFromBuffer`: write `copySize` bytes of
    `src` (read from `srcOffset`) into the buffer at `dstOffset`.  A buffer
    is a byte store `Nat → Nat`. -/
def CopyDataFromBuffer (buf : Nat → Nat) (src : Nat → Nat)
    (srcOffset dstOffset copySize : Nat) : Nat → Nat :=
  fun i =>
    if dstOffset ≤ i ∧ i < dstOffset + copySize then src (srcOffset + (i - dstOffset))
    else buf i

/-- `VulkanBitstreamBuffer::MemsetData`: fill `size` bytes starting at
    `dstOffset` with `value`. -/
def MemsetData (buf : Nat → Nat) (value : Nat) (dstOffset size : Nat) : Nat → Nat :=
  fun i => if dstOffset ≤ i ∧ i < dstOffset + size then value else buf i

/-- The pool-reuse branch of `VkVideoDecoder::GetBitstreamBuffer`
    (lines 955-978): on a pool hit, `newSize` is the reused entry's maximum
    capacity, the payload is copied into the front and the remainder up to
    the capacity is zero-filled.  Returns the entry's byte contents. -/
def GetBitstreamBufferReusedContents (bufMaxSize : Nat) (buf : Nat → Nat)
    (pInitializeBufferMemory : Nat → Nat) (initializeBufferMemorySize : Nat) :
    Nat → Nat :=
  let newSize := bufMaxSize
  let copySize := min initializeBufferMemorySize newSize
  MemsetData (CopyDataFromBuffer buf pInitializeBufferMemory 0 0 copySize)
    0 copySize (newSize - copySize)

/-! ### The pending-hardware-reset protocol (lines 233-255 and 772-781) -/

/-- The video-coding commands `DecodePictureWithParameters` records that are
    relevant to the reset protocol (lines 769-803). -/
inductive Cmd
  | resetQueryPool
  | beginVideoCoding
  | controlVideoCodingReset
  | pipelineBarrier
  | beginQuery
  | decodeVideo
  | endQuery
  | endVideoCoding
deriving DecidableEq, Repr

/-- The command sequence `DecodePictureWithParameters` records into the
    frame's command buffer (lines 769-803): the reset control command is
    recorded inside the decode-coding scope, and only when `m_resetDecoder`
    is pending. -/
def DecodePictureCommands (m_resetDecoder : Bool) : List Cmd :=
  [Cmd.resetQueryPool, Cmd.beginVideoCoding]
    ++ (if m_resetDecoder then [Cmd.controlVideoCodingReset] else [])
    ++ [Cmd.pipelineBarrier, Cmd.beginQuery, Cmd.decodeVideo, Cmd.endQuery,
        Cmd.endVideoCoding]

/-- Whether a decode with the given pending-reset flag records the reset
    control command. -/
def issuesReset (m_resetDecoder : Bool) : Bool :=
  (DecodePictureCommands m_resetDecoder).contains Cmd.controlVideoCodingReset

/-- The events that touch `m_resetDecoder`: a sequence start (with the
    outcome of the session-compatibility decision of lines 233-241: a new
    session is created or not) and a picture decode. -/
inductive DecodeEvent
  | seqStart (needNewSession : Bool)
  | decodePicture
deriving DecidableEq, Repr

/-- Does the event create a new video session? -/
def isCreation : DecodeEvent → Bool
  | DecodeEvent.seqStart b => b
  | DecodeEvent.decodePicture => false

/-- Is the event a picture decode? -/
def isDecode : DecodeEvent → Bool
  | DecodeEvent.seqStart _ => false
  | DecodeEvent.decodePicture => true

/-- The evolution of `m_resetDecoder`: session creation sets it (line 253),
    a decode clears it (line 780), and nothing else touches it. -/
def resetFlagStep (m_resetDecoder : Bool) : DecodeEvent → Bool
  | DecodeEvent.seqStart needNewSession => if needNewSession then true else m_resetDecoder
  | DecodeEvent.decodePicture => false

/-- The flag value after a list of events. -/
def resetFlagRun (m_resetDecoder : Bool) (evs : List DecodeEvent) : Bool :=
  evs.foldl resetFlagStep m_resetDecoder

/-- For each decode in the event list (in order), whether it recorded the
    reset control command (lines 772-781). -/
def resetOutputs (m_resetDecoder : Bool) : List DecodeEvent → List Bool
  | [] => []
  | DecodeEvent.seqStart b :: evs =>
    resetOutputs (resetFlagStep m_resetDecoder (DecodeEvent.seqStart b)) evs
  | DecodeEvent.decodePicture :: evs =>
    issuesReset m_resetDecoder :: resetOutputs false evs

/-! ## Theorems -/

/-- Helper: the H.265 `maxDpbSize` is a function of the area tier alone. -/
theorem h265MaxDpbSize_eq_of_tier_eq {a b : Int} (h : h265Tier a = h265Tier b) :
    h265MaxDpbSize a = h265MaxDpbSize b := by
  simp only [h265Tier] at h
  simp only [h265MaxDpbSize]
  split_ifs at h ⊢ <;> simp_all

/-- C1: `GetNumDecodeSurfaces` is piecewise by codec: for H.264 it returns the
    input minimum plus 4 plus 4 (1920×1080 with minimum 4 yields 12); for
    H.265 it selects `maxDpbSize` from the picture area in luma samples —
    `maxDpbPicBuf`(=6)×4 if the area is at most ¼ of `maxLumaPS`(=35651584),
    ×2 if at most ½, ×4/3 if at most ¾, else ×1 — and returns
    `min(maxDpbSize, 16) + 4` (7680×4320 yields 10); every other codec gets
    the constant 8. -/
theorem GetNumDecodeSurfaces_piecewise (minNumDecodeSurfaces width height codec : Nat) :
    GetNumDecodeSurfaces VK_VIDEO_CODEC_OPERATION_DECODE_H264_BIT_KHR
        minNumDecodeSurfaces width height
      = (minNumDecodeSurfaces + 4 + 4) % 4294967296
  ∧ GetNumDecodeSurfaces VK_VIDEO_CODEC_OPERATION_DECODE_H264_BIT_KHR 4 1920 1080 = 12
  ∧ GetNumDecodeSurfaces VK_VIDEO_CODEC_OPERATION_DECODE_H265_BIT_KHR
        minNumDecodeSurfaces width height
      = (min (if int32ofUInt32 (width * height) ≤ 35651584 / 4 then (6 * 4 : Int)
              else if int32ofUInt32 (width * height) ≤ 35651584 / 2 then 6 * 2
              else if int32ofUInt32 (width * height) ≤ 3 * 35651584 / 4 then 6 * 4 / 3
              else 6) 16 + 4).toNat
  ∧ GetNumDecodeSurfaces VK_VIDEO_CODEC_OPERATION_DECODE_H265_BIT_KHR
        minNumDecodeSurfaces 7680 4320 = 10
  ∧ (codec ≠ VK_VIDEO_CODEC_OPERATION_DECODE_H264_BIT_KHR →
     codec ≠ VK_VIDEO_CODEC_OPERATION_DECODE_H265_BIT_KHR →
     GetNumDecodeSurfaces codec minNumDecodeSurfaces width height = 8) := by
  refine ⟨rfl, by decide, ?_, rfl, ?_⟩
  · norm_num [GetNumDecodeSurfaces, VK_VIDEO_CODEC_OPERATION_DECODE_H264_BIT_KHR,
      VK_VIDEO_CODEC_OPERATION_DECODE_H265_BIT_KHR, h265MaxDpbSize]
  · intro h1 h2
    simp [GetNumDecodeSurfaces, h1, h2]

/-- Witness for C1: the default branch at codec value 0 (`NONE`). -/
theorem GetNumDecodeSurfaces_piecewise_witness :
    (0 : Nat) ≠ VK_VIDEO_CODEC_OPERATION_DECODE_H264_BIT_KHR
  ∧ (0 : Nat) ≠ VK_VIDEO_CODEC_OPERATION_DECODE_H265_BIT_KHR
  ∧ GetNumDecodeSurfaces 0 5 100 100 = 8 :=
  ⟨by decide, by decide,
   (GetNumDecodeSurfaces_piecewise 5 100 100 0).2.2.2.2 (by decide) (by decide)⟩

/-- C2 counterexample: the claim "the output is greater than or equal to the
    input minimum number of decode surfaces" fails on the H.265 branch, which
    ignores the input minimum: with a requested minimum of 21 at 7680×4320
    the function returns 10. -/
theorem GetNumDecodeSurfaces_ge_min_cex :
    GetNumDecodeSurfaces VK_VIDEO_CODEC_OPERATION_DECODE_H265_BIT_KHR 21 7680 4320 = 10
  ∧ ¬ (21 ≤ GetNumDecodeSurfaces VK_VIDEO_CODEC_OPERATION_DECODE_H265_BIT_KHR
         21 7680 4320) := by
  decide

/-- C2 amended: the output is ≥ the input minimum for H.264 (whenever
    `min + 8` does not wrap at 2^32); for every other codec the output is
    independent of the input minimum (and so can fall below a large requested
    minimum); and within a fixed DPB tier the output is constant in the
    resolution, hence monotonically non-decreasing as resolution increases
    within the tier. -/
theorem GetNumDecodeSurfaces_min_headroom_and_tier_monotone
    (codec minNum width height width2 height2 : Nat) :
    (minNum + 4 + 4 < 4294967296 →
      minNum ≤ GetNumDecodeSurfaces VK_VIDEO_CODEC_OPERATION_DECODE_H264_BIT_KHR
          minNum width height)
  ∧ (codec ≠ VK_VIDEO_CODEC_OPERATION_DECODE_H264_BIT_KHR →
      GetNumDecodeSurfaces codec minNum width height
        = GetNumDecodeSurfaces codec 0 width height)
  ∧ (dpbTier width height = dpbTier width2 height2 →
      GetNumDecodeSurfaces VK_VIDEO_CODEC_OPERATION_DECODE_H265_BIT_KHR
          minNum width height
        = GetNumDecodeSurfaces VK_VIDEO_CODEC_OPERATION_DECODE_H265_BIT_KHR
          minNum width2 height2) := by
  refine ⟨?_, ?_, ?_⟩
  · intro hlt
    show minNum ≤ (minNum + 4 + 4) % 4294967296
    rw [Nat.mod_eq_of_lt hlt]
    omega
  · intro h
    simp [GetNumDecodeSurfaces, h]
  · intro h
    simp only [GetNumDecodeSurfaces, VK_VIDEO_CODEC_OPERATION_DECODE_H265_BIT_KHR,
      VK_VIDEO_CODEC_OPERATION_DECODE_H264_BIT_KHR]
    rw [h265MaxDpbSize_eq_of_tier_eq h]

/-- Witness for C2's amended claim at concrete inputs (tier 3 twice). -/
theorem GetNumDecodeSurfaces_min_headroom_and_tier_monotone_witness :
    9 ≤ GetNumDecodeSurfaces VK_VIDEO_CODEC_OPERATION_DECODE_H264_BIT_KHR 9 7680 4320
  ∧ GetNumDecodeSurfaces 0 9 7680 4320 = GetNumDecodeSurfaces 0 0 7680 4320
  ∧ GetNumDecodeSurfaces VK_VIDEO_CODEC_OPERATION_DECODE_H265_BIT_KHR 9 7680 4320
      = GetNumDecodeSurfaces VK_VIDEO_CODEC_OPERATION_DECODE_H265_BIT_KHR 9 8000 4320 :=
  ⟨(GetNumDecodeSurfaces_min_headroom_and_tier_monotone 0 9 7680 4320 8000 4320).1
     (by decide),
   (GetNumDecodeSurfaces_min_headroom_and_tier_monotone 0 9 7680 4320 8000 4320).2.1
     (by decide),
   (GetNumDecodeSurfaces_min_headroom_and_tier_monotone 0 9 7680 4320 8000 4320).2.2
     (by decide)⟩

/-- Helper: every path of `StartVideoSequence` sets `m_numDecodeSurfaces` to
    the maximum of its previous value and the freshly computed
    `GetNumDecodeSurfaces` result (line 149). -/
theorem startVideoSequence_numDecodeSurfaces (st : DecodeSessionState)
    (fmt : VkParserDetectedVideoFormat) (isCodecSupported : Bool)
    (caps : Option VkVideoCapabilitiesModel) (supportedFormats : Option (Nat × Nat))
    (sessionIsCompatible : Bool) :
    (StartVideoSequence st fmt isCodecSupported caps supportedFormats
        sessionIsCompatible).2.m_numDecodeSurfaces
      = max st.m_numDecodeSurfaces
          (GetNumDecodeSurfaces fmt.codec fmt.minNumDecodeSurfaces
            fmt.coded_width fmt.coded_height) := by
  cases hb : st.m_videoSession.isNone || !sessionIsCompatible <;>
    cases isCodecSupported <;> cases caps <;> cases supportedFormats <;>
      simp [StartVideoSequence, hb]

/-- C3: across any sequence of `StartVideoSequence` calls the negotiated
    decode-surface count is non-decreasing: each call sets
    `m_numDecodeSurfaces` to the maximum of its previous value and the fresh
    `GetNumDecodeSurfaces` result, so the value after any further calls is
    never below the value before them — in particular, a later sequence-start
    with a smaller resolution never reduces the already-negotiated count. -/
theorem numDecodeSurfaces_running_max (st : DecodeSessionState)
    (fmt : VkParserDetectedVideoFormat) (isCodecSupported : Bool)
    (caps : Option VkVideoCapabilitiesModel) (supportedFormats : Option (Nat × Nat))
    (sessionIsCompatible : Bool) (calls : List SequenceStartCall) :
    (StartVideoSequence st fmt isCodecSupported caps supportedFormats
        sessionIsCompatible).2.m_numDecodeSurfaces
      = max st.m_numDecodeSurfaces
          (GetNumDecodeSurfaces fmt.codec fmt.minNumDecodeSurfaces
            fmt.coded_width fmt.coded_height)
  ∧ st.m_numDecodeSurfaces
      ≤ (runStartVideoSequence st calls).m_numDecodeSurfaces := by
  refine ⟨startVideoSequence_numDecodeSurfaces st fmt isCodecSupported caps
    supportedFormats sessionIsCompatible, ?_⟩
  induction calls generalizing st with
  | nil => exact Nat.le_refl _
  | cons c rest ih =>
    refine Nat.le_trans ?_ (ih _)
    rw [startVideoSequence_numDecodeSurfaces]
    exact Nat.le_max_left _ _

/-- C9 counterexample: a `StartVideoSequence` call that fails (unsupported
    codec) is not free of state changes: the running-maximum surface count
    `m_numDecodeSurfaces` is updated at line 149, before the support and
    capability checks, so the failed call leaves it changed (0 → 12 here). -/
theorem startVideoSequence_failure_cex :
    (StartVideoSequence
        { m_numDecodeSurfaces := 0, m_videoSession := none, nextSessionId := 0,
          m_resetDecoder := false, m_videoFormat := none, imagePoolConfig := none,
          m_maxDecodeFramesCount := 0 }
        { codec := 1, minNumDecodeSurfaces := 4, coded_width := 1920,
          coded_height := 1080, display_left := 0, display_top := 0,
          display_right := 1920, display_bottom := 1080, maxNumDpbSlots := 16 }
        false none none false).1 = -1
  ∧ (StartVideoSequence
        { m_numDecodeSurfaces := 0, m_videoSession := none, nextSessionId := 0,
          m_resetDecoder := false, m_videoFormat := none, imagePoolConfig := none,
          m_maxDecodeFramesCount := 0 }
        { codec := 1, minNumDecodeSurfaces := 4, coded_width := 1920,
          coded_height := 1080, display_left := 0, display_top := 0,
          display_right := 1920, display_bottom := 1080, maxNumDpbSlots := 16 }
        false none none false).2.m_numDecodeSurfaces = 12 := by
  decide

/-- C9 amended: whenever the codec is unsupported on the decode queue family,
    the capability query fails, or the supported-formats query fails,
    `StartVideoSequence` returns a failure result (-1) and performs no
    session creation, pool resize, reset-flag change or format persistence;
    the one state change that does survive the failed call is the
    running-maximum surface count, updated before the checks. -/
theorem startVideoSequence_failure_aborts (st : DecodeSessionState)
    (fmt : VkParserDetectedVideoFormat) (isCodecSupported : Bool)
    (caps : Option VkVideoCapabilitiesModel) (supportedFormats : Option (Nat × Nat))
    (sessionIsCompatible : Bool)
    (h : isCodecSupported = false ∨ caps = none ∨ supportedFormats = none) :
    (StartVideoSequence st fmt isCodecSupported caps supportedFormats
        sessionIsCompatible).1 = -1
  ∧ (StartVideoSequence st fmt isCodecSupported caps supportedFormats
        sessionIsCompatible).2
      = { st with
            m_numDecodeSurfaces := max st.m_numDecodeSurfaces
              (GetNumDecodeSurfaces fmt.codec fmt.minNumDecodeSurfaces
                fmt.coded_width fmt.coded_height) } := by
  rcases h with h | h | h
  · subst h
    cases caps <;> cases supportedFormats <;> exact ⟨rfl, rfl⟩
  · subst h
    cases isCodecSupported <;> cases supportedFormats <;> exact ⟨rfl, rfl⟩
  · subst h
    cases isCodecSupported <;> cases caps <;> exact ⟨rfl, rfl⟩

/-- Witness for C9's amended claim: a failed capability query. -/
theorem startVideoSequence_failure_aborts_witness :
    (StartVideoSequence
        { m_numDecodeSurfaces := 12, m_videoSession := some 0, nextSessionId := 1,
          m_resetDecoder := false, m_videoFormat := none, imagePoolConfig := none,
          m_maxDecodeFramesCount := 12 }
        { codec := 2, minNumDecodeSurfaces := 6, coded_width := 7680,
          coded_height := 4320, display_left := 0, display_top := 0,
          display_right := 7680, display_bottom := 4320, maxNumDpbSlots := 16 }
        true none (some (1, 2)) true).1 = -1
  ∧ (StartVideoSequence
        { m_numDecodeSurfaces := 12, m_videoSession := some 0, nextSessionId := 1,
          m_resetDecoder := false, m_videoFormat := none, imagePoolConfig := none,
          m_maxDecodeFramesCount := 12 }
        { codec := 2, minNumDecodeSurfaces := 6, coded_width := 7680,
          coded_height := 4320, display_left := 0, display_top := 0,
          display_right := 7680, display_bottom := 4320, maxNumDpbSlots := 16 }
        true none (some (1, 2)) true).2
      = { m_numDecodeSurfaces := 12, m_videoSession := some 0, nextSessionId := 1,
          m_resetDecoder := false, m_videoFormat := none, imagePoolConfig := none,
          m_maxDecodeFramesCount := 12 } :=
  startVideoSequence_failure_aborts _ _ _ _ _ _ (Or.inr (Or.inl rfl))

/-- C7: when `GetBitstreamBuffer` reuses a pool entry, the buffer afterwards
    holds the new payload bytes in positions `[0, initializeBufferMemorySize)`
    and zero bytes from the payload length up to the entry's maximum
    capacity — no stale data from the previous use remains. -/
theorem getBitstreamBuffer_reuse_zero_padded (bufMaxSize : Nat) (buf payload : Nat → Nat)
    (initializeBufferMemorySize i : Nat)
    (hlen : initializeBufferMemorySize ≤ bufMaxSize) :
    (i < initializeBufferMemorySize →
      GetBitstreamBufferReusedContents bufMaxSize buf payload
        initializeBufferMemorySize i = payload i)
  ∧ (initializeBufferMemorySize ≤ i → i < bufMaxSize →
      GetBitstreamBufferReusedContents bufMaxSize buf payload
        initializeBufferMemorySize i = 0) := by
  simp only [GetBitstreamBufferReusedContents, MemsetData, CopyDataFromBuffer]
  constructor
  · intro hi
    rw [if_neg (by omega), if_pos (by omega)]
    congr 1
    omega
  · intro hi1 hi2
    rw [if_pos (by omega)]

/-- Witness for C7: reusing an entry of capacity 8 with a 3-byte payload. -/
theorem getBitstreamBuffer_reuse_zero_padded_witness :
    GetBitstreamBufferReusedContents 8 (fun _ => 7) (fun j => j + 1) 3 1 = 2
  ∧ GetBitstreamBufferReusedContents 8 (fun _ => 7) (fun j => j + 1) 3 5 = 0 :=
  ⟨(getBitstreamBuffer_reuse_zero_padded 8 (fun _ => 7) (fun j => j + 1) 3 1
      (by decide)).1 (by decide),
   (getBitstreamBuffer_reuse_zero_padded 8 (fun _ => 7) (fun j => j + 1) 3 5
      (by decide)).2 (by decide) (by decide)⟩

/-- C10: whenever the lookup loop of `GetVideoCodecString` finds a table
    entry with matching `eCodec` at index `i`, the function's table access
    `aCodecName[codec]` is in bounds and returns the name of that matched
    entry (in this build the codec values 0, 1, 2 coincide with their table
    indexes); for every other codec value it returns "Unknown". -/
theorem getVideoCodecString_lookup (codec i : Nat) :
    (aCodecName.findIdx? (fun e => e.1 = codec) = some i →
      codec < aCodecName.length
        ∧ GetVideoCodecString codec = (aCodecName[i]?).map (fun e => e.2))
  ∧ (aCodecName.findIdx? (fun e => e.1 = codec) = none →
      GetVideoCodecString codec = some "Unknown") := by
  constructor
  · intro h
    match codec with
    | 0 =>
      simp_all [aCodecName, GetVideoCodecString, List.findIdx?,
        VK_VIDEO_CODEC_OPERATION_NONE_KHR, VK_VIDEO_CODEC_OPERATION_DECODE_H264_BIT_KHR,
        VK_VIDEO_CODEC_OPERATION_DECODE_H265_BIT_KHR]
      omega
    | 1 =>
      simp_all [aCodecName, GetVideoCodecString, List.findIdx?,
        VK_VIDEO_CODEC_OPERATION_NONE_KHR, VK_VIDEO_CODEC_OPERATION_DECODE_H264_BIT_KHR,
        VK_VIDEO_CODEC_OPERATION_DECODE_H265_BIT_KHR]
      omega
    | 2 =>
      simp_all [aCodecName, GetVideoCodecString, List.findIdx?,
        VK_VIDEO_CODEC_OPERATION_NONE_KHR, VK_VIDEO_CODEC_OPERATION_DECODE_H264_BIT_KHR,
        VK_VIDEO_CODEC_OPERATION_DECODE_H265_BIT_KHR]
      omega
    | (n + 3) =>
      exfalso
      simp [aCodecName, List.findIdx?, VK_VIDEO_CODEC_OPERATION_NONE_KHR,
        VK_VIDEO_CODEC_OPERATION_DECODE_H264_BIT_KHR,
        VK_VIDEO_CODEC_OPERATION_DECODE_H265_BIT_KHR] at h
  · intro h
    simp only [GetVideoCodecString, h]

/-- Witness for C10: lookup of the H.265 codec value and of an unknown one. -/
theorem getVideoCodecString_lookup_witness :
    ((2 : Nat) < aCodecName.length
      ∧ GetVideoCodecString 2 = (aCodecName[2]?).map (fun e => e.2))
  ∧ GetVideoCodecString 7 = some "Unknown" :=
  ⟨(getVideoCodecString_lookup 2 2).1 (by decide),
   (getVideoCodecString_lookup 7 0).2 (by decide)⟩

/-- Helper: the per-decode reset outputs of a concatenation. -/
theorem resetOutputs_append (s : Bool) (l1 l2 : List DecodeEvent) :
    resetOutputs s (l1 ++ l2)
      = resetOutputs s l1 ++ resetOutputs (resetFlagRun s l1) l2 := by
  induction l1 generalizing s with
  | nil => rfl
  | cons e rest ih =>
    cases e with
    | seqStart b =>
      simp only [List.cons_append, resetOutputs, resetFlagRun, List.foldl_cons]
      exact ih _
    | decodePicture =>
      simp only [List.cons_append, resetOutputs, resetFlagRun, List.foldl_cons,
        List.append_eq]
      rw [ih false]
      rfl

/-- Helper: without a decode, a pending reset flag stays pending. -/
theorem resetFlagRun_true_of_noDecode (l : List DecodeEvent)
    (h : ∀ e ∈ l, isDecode e = false) : resetFlagRun true l = true := by
  induction l with
  | nil => rfl
  | cons e rest ih =>
    cases e with
    | seqStart b =>
      have : resetFlagStep true (DecodeEvent.seqStart b) = true := by
        cases b <;> rfl
      simpa [resetFlagRun, List.foldl_cons, this] using
        ih (fun x hx => h x (List.mem_cons_of_mem _ hx))
    | decodePicture =>
      exact absurd (h _ (List.mem_cons_self _ _)) (by simp [isDecode])

/-- Helper: without a session creation, a cleared reset flag stays cleared. -/
theorem resetFlagRun_false_of_noCreation (l : List DecodeEvent)
    (h : ∀ e ∈ l, isCreation e = false) : resetFlagRun false l = false := by
  induction l with
  | nil => rfl
  | cons e rest ih =>
    have hrest := fun x hx => h x (List.mem_cons_of_mem _ hx)
    cases e with
    | seqStart b =>
      have hb : b = false := by simpa [isCreation] using h _ (List.mem_cons_self _ _)
      subst hb
      simpa [resetFlagRun, List.foldl_cons, resetFlagStep] using ih hrest
    | decodePicture =>
      simpa [resetFlagRun, List.foldl_cons, resetFlagStep] using ih hrest

/-- Helper: the number of decodes that record the reset control command is
    bounded by the number of session creations plus one pending flag. -/
theorem resetOutputs_count_le (evs : List DecodeEvent) (s : Bool) :
    (resetOutputs s evs).count true
      ≤ evs.countP isCreation + (if s then 1 else 0) := by
  induction evs generalizing s with
  | nil => simp [resetOutputs]
  | cons e rest ih =>
    cases e with
    | seqStart b =>
      have := ih (resetFlagStep s (DecodeEvent.seqStart b))
      simp only [resetOutputs, List.countP_cons, isCreation, resetFlagStep] at *
      cases b <;> cases s <;> simp_all <;> omega
    | decodePicture =>
      have := ih false
      have hs : issuesReset s = s := by cases s <;> rfl
      simp only [resetOutputs, List.countP_cons, List.count_cons, isCreation, hs] at *
      cases s <;> simp_all <;> omega

/-- C8: the hardware-reset control command is issued exactly once per session
    (re)creation and never otherwise: (i) a decode records the reset control
    command exactly when `m_resetDecoder` is pending, and records it inside
    the decode-coding scope (after `vkCmdBeginVideoCodingKHR`, before
    `vkCmdEndVideoCodingKHR`); (ii) over any event run starting with a clear
    flag, the number of reset commands recorded is at most the number of
    session creations; (iii) the first decode after a session creation
    records the reset; (iv) a decode following an earlier decode with no
    session creation in between records none. -/
theorem resetDecoder_once_per_session (evs pre mid : List DecodeEvent) :
    (issuesReset true = true ∧ issuesReset false = false
      ∧ (DecodePictureCommands true).count Cmd.controlVideoCodingReset = 1
      ∧ (DecodePictureCommands false).count Cmd.controlVideoCodingReset = 0
      ∧ (DecodePictureCommands true).indexOf Cmd.beginVideoCoding
          < (DecodePictureCommands true).indexOf Cmd.controlVideoCodingReset
      ∧ (DecodePictureCommands true).indexOf Cmd.controlVideoCodingReset
          < (DecodePictureCommands true).indexOf Cmd.endVideoCoding)
  ∧ (resetOutputs false evs).count true ≤ evs.countP isCreation
  ∧ ((∀ e ∈ mid, isDecode e = false) →
      resetOutputs false
          (pre ++ DecodeEvent.seqStart true :: (mid ++ [DecodeEvent.decodePicture]))
        = resetOutputs false (pre ++ DecodeEvent.seqStart true :: mid) ++ [true])
  ∧ ((∀ e ∈ mid, isCreation e = false) →
      resetOutputs false
          (pre ++ DecodeEvent.decodePicture :: (mid ++ [DecodeEvent.decodePicture]))
        = resetOutputs false (pre ++ DecodeEvent.decodePicture :: mid) ++ [false]) := by
  refine ⟨by decide, ?_, ?_, ?_⟩
  · simpa using resetOutputs_count_le evs false
  · intro h
    have e1 : pre ++ DecodeEvent.seqStart true :: (mid ++ [DecodeEvent.decodePicture])
        = (pre ++ DecodeEvent.seqStart true :: mid) ++ [DecodeEvent.decodePicture] := by
      simp
    rw [e1, resetOutputs_append]
    have e2 : resetFlagRun false (pre ++ DecodeEvent.seqStart true :: mid) = true := by
      have : resetFlagRun false (pre ++ DecodeEvent.seqStart true :: mid)
          = resetFlagRun (resetFlagStep (resetFlagRun false pre)
              (DecodeEvent.seqStart true)) mid := by
        simp [resetFlagRun, List.foldl_append, List.foldl_cons]
      rw [this]
      have : resetFlagStep (resetFlagRun false pre) (DecodeEvent.seqStart true)
          = true := rfl
      rw [this]
      exact resetFlagRun_true_of_noDecode mid h
    rw [e2]
    rfl
  · intro h
    have e1 : pre ++ DecodeEvent.decodePicture :: (mid ++ [DecodeEvent.decodePicture])
        = (pre ++ DecodeEvent.decodePicture :: mid) ++ [DecodeEvent.decodePicture] := by
      simp
    rw [e1, resetOutputs_append]
    have e2 : resetFlagRun false (pre ++ DecodeEvent.decodePicture :: mid) = false := by
      have : resetFlagRun false (pre ++ DecodeEvent.decodePicture :: mid)
          = resetFlagRun (resetFlagStep (resetFlagRun false pre)
              DecodeEvent.decodePicture) mid := by
        simp [resetFlagRun, List.foldl_append, List.foldl_cons]
      rw [this]
      have : resetFlagStep (resetFlagRun false pre) DecodeEvent.decodePicture
          = false := rfl
      rw [this]
      exact resetFlagRun_false_of_noCreation mid h
    rw [e2]
    rfl

/-- Witness for C8: a creation, its first decode (reset recorded), a second
    decode (none), and a later decode after a re-creation (reset again). -/
theorem resetDecoder_once_per_session_witness :
    (resetOutputs false
        [DecodeEvent.seqStart true, DecodeEvent.decodePicture,
         DecodeEvent.decodePicture, DecodeEvent.seqStart true,
         DecodeEvent.decodePicture]).count true
      ≤ ([DecodeEvent.seqStart true, DecodeEvent.decodePicture,
          DecodeEvent.decodePicture, DecodeEvent.seqStart true,
          DecodeEvent.decodePicture].countP isCreation)
  ∧ resetOutputs false
        ([] ++ DecodeEvent.seqStart true :: ([] ++ [DecodeEvent.decodePicture]))
      = resetOutputs false ([] ++ DecodeEvent.seqStart true :: []) ++ [true]
  ∧ resetOutputs false
        ([DecodeEvent.seqStart true]
          ++ DecodeEvent.decodePicture :: ([] ++ [DecodeEvent.decodePicture]))
      = resetOutputs false
          ([DecodeEvent.seqStart true] ++ DecodeEvent.decodePicture :: []) ++ [false] :=
  ⟨(resetDecoder_once_per_session
      [DecodeEvent.seqStart true, DecodeEvent.decodePicture,
       DecodeEvent.decodePicture, DecodeEvent.seqStart true,
       DecodeEvent.decodePicture] [] []).2.1,
   (resetDecoder_once_per_session [] [] []).2.2.1 (by decide),
   (resetDecoder_once_per_session [] [DecodeEvent.seqStart true] []).2.2.2
     (by decide)⟩

/-- C4: when a new parameter-set node arrives and the last-seen node of its
    expected child kind stores a parent id equal to the new node's id, that
    child's parent pointer is retroactively set to the new node: an SPS
    arrival relinks the last-seen PPS, a VPS arrival relinks the last-seen
    SPS (so a PPS that referenced SPS id I before SPS id I existed gets its
    parent fixed up when SPS id I arrives). -/
theorem updatePictureParameters_retroactive_parent (st : ParamGraphState)
    (nodeId parentId : Int) (updSeq j : Nat)
    (child : StdVideoPictureParametersSet) :
    (st.m_lastPictParamsQueue ItemType.PPS_TYPE = some j →
      st.nodes[j]? = some child →
      child.parentId = nodeId →
      (UpdatePictureParameters st ItemType.SPS_TYPE nodeId parentId
          updSeq).nodes[j]?
        = some { child with m_parent := some st.nodes.length })
  ∧ (st.m_lastPictParamsQueue ItemType.SPS_TYPE = some j →
      st.nodes[j]? = some child →
      child.parentId = nodeId →
      (UpdatePictureParameters st ItemType.VPS_TYPE nodeId parentId
          updSeq).nodes[j]?
        = some { child with m_parent := some st.nodes.length }) := by
  constructor
  all_goals {
    intro h1 h2 h3
    have hj : j < st.nodes.length := (List.getElem?_eq_some.mp h2).1
    simp only [UpdatePictureParameters, recordNewNode, h1, h2, h3, if_pos]
    rw [List.getElem?_append_left (by simpa using hj)]
    exact List.getElem?_set_self hj }

/-- Witness for C4 (spec Scenario C): a PPS with id 1 referencing SPS id 0
    arrives first; when SPS id 0 then arrives, the PPS node's parent becomes
    that SPS node (node index 1). -/
theorem updatePictureParameters_retroactive_parent_witness :
    (UpdatePictureParameters
        (UpdatePictureParameters initialParamGraphState ItemType.PPS_TYPE 1 0 0)
        ItemType.SPS_TYPE 0 0 0).nodes[0]?
      = some { m_itemType := ItemType.PPS_TYPE, nodeId := 1, parentId := 0,
               m_updateSequenceCount := 0, m_parent := some 1 } :=
  (updatePictureParameters_retroactive_parent
      (UpdatePictureParameters initialParamGraphState ItemType.PPS_TYPE 1 0 0)
      0 0 0 0
      { m_itemType := ItemType.PPS_TYPE, nodeId := 1, parentId := 0,
        m_updateSequenceCount := 0, m_parent := none }).1
    (by decide) (by decide) (by decide)

/-- Helper: the code's `createNewObject` disjunction of
    `CheckStdObjectBeforeUpdate` calls holds exactly when some present node
    of the batch has no compiled current object yet or a nonzero
    update-sequence counter. -/
theorem checkStdObject_batch_iff (st : PictureParametersState)
    (vps sps pps : Option StdVideoPictureParametersSet) :
    (CheckStdObjectBeforeUpdate pps st.m_currentPictureParameters
      || CheckStdObjectBeforeUpdate sps st.m_currentPictureParameters
      || CheckStdObjectBeforeUpdate vps st.m_currentPictureParameters) = true
    ↔ ∃ n ∈ [vps, sps, pps].filterMap id,
        st.m_currentPictureParameters = none ∨ n.m_updateSequenceCount ≠ 0 := by
  rcases vps with _ | v <;> rcases sps with _ | s <;> rcases pps with _ | p <;>
    cases hc : st.m_currentPictureParameters <;>
      simp [CheckStdObjectBeforeUpdate, hc, Nat.pos_iff_ne_zero] <;> tauto

/-- C5: for a flushed batch of up to one node per kind,
    `AddPictureParameters` returns null and changes nothing when no node is
    present; otherwise it creates a brand-new parameter object — seeded from
    the current object as template and installed as the new current object,
    with the identity counter advanced — if and only if at least one present
    node satisfies `CheckStdObjectBeforeUpdate` (no current compiled object
    exists yet, or the node's update-sequence counter is nonzero); otherwise
    it updates the existing current object in place and returns null. -/
theorem addPictureParameters_create_vs_update (st : PictureParametersState)
    (vps sps pps : Option StdVideoPictureParametersSet) :
    AddPictureParameters st none none none = (none, st)
  ∧ (¬(pps = none ∧ sps = none ∧ vps = none) →
      ((AddPictureParameters st vps sps pps).2.createdObjects
          = st.createdObjects
              ++ [(VkParserVideoPictureParametersCreate st.m_currentId vps sps pps
                    st.m_currentPictureParameters).1]
        ↔ ∃ n ∈ [vps, sps, pps].filterMap id,
            st.m_currentPictureParameters = none ∨ n.m_updateSequenceCount ≠ 0))
  ∧ (¬(pps = none ∧ sps = none ∧ vps = none) →
      (∃ n ∈ [vps, sps, pps].filterMap id,
          st.m_currentPictureParameters = none ∨ n.m_updateSequenceCount ≠ 0) →
      (AddPictureParameters st vps sps pps).1
          = some (VkParserVideoPictureParametersCreate st.m_currentId vps sps pps
              st.m_currentPictureParameters).1
        ∧ (AddPictureParameters st vps sps pps).2.m_currentPictureParameters
            = (AddPictureParameters st vps sps pps).1
        ∧ (AddPictureParameters st vps sps pps).2.m_currentId = st.m_currentId + 1)
  ∧ (∀ cur, st.m_currentPictureParameters = some cur →
      (¬ ∃ n ∈ [vps, sps, pps].filterMap id,
          st.m_currentPictureParameters = none ∨ n.m_updateSequenceCount ≠ 0) →
      AddPictureParameters st vps sps pps
        = (none, { st with
              m_currentPictureParameters :=
                some (VkParserVideoPictureParametersUpdate cur vps sps pps) })) := by
  have hcond := checkStdObject_batch_iff st vps sps pps
  refine ⟨rfl, ?_, ?_, ?_⟩
  · intro hpres
    constructor
    · intro heq
      by_contra hnex
      have hbf : (CheckStdObjectBeforeUpdate pps st.m_currentPictureParameters
          || CheckStdObjectBeforeUpdate sps st.m_currentPictureParameters
          || CheckStdObjectBeforeUpdate vps st.m_currentPictureParameters) = false :=
        (Bool.not_eq_true _).mp (fun h => hnex (hcond.mp h))
      have hunch : (AddPictureParameters st vps sps pps).2.createdObjects
          = st.createdObjects := by
        simp only [AddPictureParameters, if_neg hpres, hbf]
        cases st.m_currentPictureParameters <;> rfl
      rw [hunch] at heq
      have := congrArg List.length heq
      simp at this
    · intro hex
      have hbt := hcond.mpr hex
      simp only [AddPictureParameters, if_neg hpres, hbt, if_true]
  · intro hpres hex
    have hbt := hcond.mpr hex
    simp only [AddPictureParameters, if_neg hpres, hbt, if_true]
    exact ⟨trivial, trivial, rfl⟩
  · intro cur hc hnex
    have hbf : (CheckStdObjectBeforeUpdate pps st.m_currentPictureParameters
        || CheckStdObjectBeforeUpdate sps st.m_currentPictureParameters
        || CheckStdObjectBeforeUpdate vps st.m_currentPictureParameters) = false :=
      (Bool.not_eq_true _).mp (fun h => hnex (hcond.mp h))
    by_cases hall : pps = none ∧ sps = none ∧ vps = none
    · obtain ⟨h1, h2, h3⟩ := hall
      subst h1; subst h2; subst h3
      obtain ⟨cid, curf, co⟩ := st
      simp only at hc
      subst hc
      rfl
    · rw [hc] at hbf
      simp only [AddPictureParameters, if_neg hall, hc, hbf, Bool.false_eq_true,
        if_false]

/-- Witness for C5: first SPS creates an object; a PPS with counter 0 then
    updates the current object in place; an SPS revision (counter 1) creates
    a fresh object again. -/
theorem addPictureParameters_create_vs_update_witness :
    (AddPictureParameters initialPictureParametersState none none none
        = (none, initialPictureParametersState))
  ∧ ((AddPictureParameters initialPictureParametersState none
        (some { m_itemType := ItemType.SPS_TYPE, nodeId := 0, parentId := 0,
                m_updateSequenceCount := 0, m_parent := none }) none).1
      = some (VkParserVideoPictureParametersCreate 0 none
          (some { m_itemType := ItemType.SPS_TYPE, nodeId := 0, parentId := 0,
                  m_updateSequenceCount := 0, m_parent := none }) none none).1)
  ∧ (AddPictureParameters
        { m_currentId := 1,
          m_currentPictureParameters :=
            some { m_Id := 1, m_vpsIdsUsed := ∅, m_spsIdsUsed := {0},
                   m_ppsIdsUsed := ∅ },
          createdObjects :=
            [{ m_Id := 1, m_vpsIdsUsed := ∅, m_spsIdsUsed := {0},
               m_ppsIdsUsed := ∅ }] }
        none none
        (some { m_itemType := ItemType.PPS_TYPE, nodeId := 1, parentId := 0,
                m_updateSequenceCount := 0, m_parent := none })
      = (none,
         { m_currentId := 1,
           m_currentPictureParameters :=
             some (VkParserVideoPictureParametersUpdate
               { m_Id := 1, m_vpsIdsUsed := ∅, m_spsIdsUsed := {0},
                 m_ppsIdsUsed := ∅ }
               none none
               (some { m_itemType := ItemType.PPS_TYPE, nodeId := 1, parentId := 0,
                       m_updateSequenceCount := 0, m_parent := none })),
           createdObjects :=
             [{ m_Id := 1, m_vpsIdsUsed := ∅, m_spsIdsUsed := {0},
                m_ppsIdsUsed := ∅ }] })) :=
  ⟨(addPictureParameters_create_vs_update initialPictureParametersState
      none none none).1,
   ((addPictureParameters_create_vs_update initialPictureParametersState none
      (some { m_itemType := ItemType.SPS_TYPE, nodeId := 0, parentId := 0,
              m_updateSequenceCount := 0, m_parent := none }) none).2.2.1
      (by decide) (by decide)).1,
   (addPictureParameters_create_vs_update
      { m_currentId := 1,
        m_currentPictureParameters :=
          some { m_Id := 1, m_vpsIdsUsed := ∅, m_spsIdsUsed := {0},
                 m_ppsIdsUsed := ∅ },
        createdObjects :=
          [{ m_Id := 1, m_vpsIdsUsed := ∅, m_spsIdsUsed := {0},
             m_ppsIdsUsed := ∅ }] }
      none none
      (some { m_itemType := ItemType.PPS_TYPE, nodeId := 1, parentId := 0,
              m_updateSequenceCount := 0, m_parent := none })).2.2.2
     { m_Id := 1, m_vpsIdsUsed := ∅, m_spsIdsUsed := {0}, m_ppsIdsUsed := ∅ }
     (by decide) (by decide)⟩

/-- Helper: one `AddPictureParameters` step preserves the identity
    invariant: created objects have strictly increasing `m_Id` in creation
    order, all bounded by the current value of the process-wide counter. -/
theorem addPictureParameters_id_invariant (st : PictureParametersState)
    (vps sps pps : Option StdVideoPictureParametersSet)
    (h1 : st.createdObjects.Pairwise (fun a b => a.m_Id < b.m_Id))
    (h2 : ∀ o ∈ st.createdObjects, o.m_Id ≤ st.m_currentId) :
    (AddPictureParameters st vps sps pps).2.createdObjects.Pairwise
        (fun a b => a.m_Id < b.m_Id)
    ∧ ∀ o ∈ (AddPictureParameters st vps sps pps).2.createdObjects,
        o.m_Id ≤ (AddPictureParameters st vps sps pps).2.m_currentId := by
  by_cases hall : pps = none ∧ sps = none ∧ vps = none
  · simp only [AddPictureParameters, if_pos hall]
    exact ⟨h1, h2⟩
  · simp only [AddPictureParameters, if_neg hall]
    by_cases hb : (CheckStdObjectBeforeUpdate pps st.m_currentPictureParameters
        || CheckStdObjectBeforeUpdate sps st.m_currentPictureParameters
        || CheckStdObjectBeforeUpdate vps st.m_currentPictureParameters) = true
    · simp only [hb, if_true]
      constructor
      · rw [List.pairwise_append]
        refine ⟨h1, List.pairwise_singleton _ _, ?_⟩
        intro a ha b hbmem
        simp only [List.mem_singleton] at hbmem
        subst hbmem
        have := h2 a ha
        show a.m_Id < st.m_currentId + 1
        omega
      · intro o ho
        rcases List.mem_append.mp ho with hmem | hmem
        · have := h2 o hmem
          show o.m_Id ≤ st.m_currentId + 1
          omega
        · simp only [List.mem_singleton] at hmem
          subst hmem
          exact Nat.le_refl _
    · have hbf : (CheckStdObjectBeforeUpdate pps st.m_currentPictureParameters
          || CheckStdObjectBeforeUpdate sps st.m_currentPictureParameters
          || CheckStdObjectBeforeUpdate vps st.m_currentPictureParameters) = false :=
        Bool.not_eq_true _ |>.mp hb
      simp only [hbf, Bool.false_eq_true, if_false]
      cases hc : st.m_currentPictureParameters <;> exact ⟨h1, h2⟩

/-- Helper: the identity invariant holds after any run of
    `AddPictureParameters` batches from the initial state. -/
theorem runAddPictureParameters_id_invariant (batches : List ParamBatch) :
    (runAddPictureParameters initialPictureParametersState batches).createdObjects.Pairwise
        (fun a b => a.m_Id < b.m_Id)
    ∧ ∀ o ∈ (runAddPictureParameters initialPictureParametersState batches).createdObjects,
        o.m_Id ≤ (runAddPictureParameters initialPictureParametersState batches).m_currentId := by
  suffices h : ∀ (st : PictureParametersState),
      st.createdObjects.Pairwise (fun a b => a.m_Id < b.m_Id) →
      (∀ o ∈ st.createdObjects, o.m_Id ≤ st.m_currentId) →
      (runAddPictureParameters st batches).createdObjects.Pairwise
          (fun a b => a.m_Id < b.m_Id)
        ∧ ∀ o ∈ (runAddPictureParameters st batches).createdObjects,
            o.m_Id ≤ (runAddPictureParameters st batches).m_currentId by
    exact h initialPictureParametersState (List.Pairwise.nil)
      (by intro o ho; simp [initialPictureParametersState] at ho)
  induction batches with
  | nil => intro st ha hb; exact ⟨ha, hb⟩
  | cons b rest ih =>
    intro st ha hb
    have step := addPictureParameters_id_invariant st b.vps b.sps b.pps ha hb
    exact ih _ step.1 step.2

/-- C6: `VkParserVideoPictureParameters` identities are strictly increasing
    in creation order (hence never reused); an object created from a
    template starts with the template's per-kind compiled-id sets as subsets
    of its own; and any object newly created by `AddPictureParameters` has a
    strictly greater identity than every previously created object — in
    particular than the object that previously owned a rebound node's id. -/
theorem pictureParameters_id_monotone (batches : List ParamBatch)
    (vps sps pps : Option StdVideoPictureParametersSet)
    (cid : Nat) (t : VkParserVideoPictureParameters) :
    ((runAddPictureParameters initialPictureParametersState batches).createdObjects.map
        (fun o => o.m_Id)).Pairwise (· < ·)
  ∧ (t.m_vpsIdsUsed
        ⊆ (VkParserVideoPictureParametersCreate cid vps sps pps (some t)).1.m_vpsIdsUsed
      ∧ t.m_spsIdsUsed
        ⊆ (VkParserVideoPictureParametersCreate cid vps sps pps (some t)).1.m_spsIdsUsed
      ∧ t.m_ppsIdsUsed
        ⊆ (VkParserVideoPictureParametersCreate cid vps sps pps (some t)).1.m_ppsIdsUsed)
  ∧ (∀ newObj,
      (AddPictureParameters (runAddPictureParameters initialPictureParametersState batches)
          vps sps pps).1 = some newObj →
      ∀ prev ∈ (runAddPictureParameters initialPictureParametersState batches).createdObjects,
        prev.m_Id < newObj.m_Id) := by
  have inv := runAddPictureParameters_id_invariant batches
  refine ⟨List.pairwise_map.mpr inv.1, ?_, ?_⟩
  · refine ⟨?_, ?_, ?_⟩ <;>
      (rcases vps with _ | v <;> rcases sps with _ | s <;> rcases pps with _ | p <;>
        simp [VkParserVideoPictureParametersCreate] <;>
        first
          | exact Finset.Subset.refl _
          | exact Finset.subset_insert _ _
          | exact (Finset.subset_insert _ _).trans (Finset.subset_insert _ _))
  · intro newObj hnew prev hprev
    set st := runAddPictureParameters initialPictureParametersState batches with hst
    by_cases hall : pps = none ∧ sps = none ∧ vps = none
    · rw [AddPictureParameters, if_pos hall] at hnew
      exact absurd hnew (by simp)
    · rw [AddPictureParameters, if_neg hall] at hnew
      by_cases hb : (CheckStdObjectBeforeUpdate pps st.m_currentPictureParameters
          || CheckStdObjectBeforeUpdate sps st.m_currentPictureParameters
          || CheckStdObjectBeforeUpdate vps st.m_currentPictureParameters) = true
      · rw [if_pos hb] at hnew
        simp only [Option.some.injEq] at hnew
        subst hnew
        have := inv.2 prev hprev
        show prev.m_Id < st.m_currentId + 1
        omega
      · have hbf := Bool.not_eq_true _ |>.mp hb
        rw [hbf] at hnew
        simp only [Bool.false_eq_true, if_false] at hnew
        cases hc : st.m_currentPictureParameters <;> rw [hc] at hnew <;>
          exact absurd hnew (by simp)

/-- Witness for C6: after one creating batch (an SPS), a revision batch
    creates a second object with a strictly larger identity than the first. -/
theorem pictureParameters_id_monotone_witness :
    (∀ newObj,
      (AddPictureParameters
          (runAddPictureParameters initialPictureParametersState
            [{ vps := none,
               sps := some { m_itemType := ItemType.SPS_TYPE, nodeId := 0,
                             parentId := 0, m_updateSequenceCount := 0,
                             m_parent := none },
               pps := none }])
          none
          (some { m_itemType := ItemType.SPS_TYPE, nodeId := 0, parentId := 0,
                  m_updateSequenceCount := 1, m_parent := none })
          none).1 = some newObj →
      ∀ prev ∈ (runAddPictureParameters initialPictureParametersState
          [{ vps := none,
             sps := some { m_itemType := ItemType.SPS_TYPE, nodeId := 0,
                           parentId := 0, m_updateSequenceCount := 0,
                           m_parent := none },
             pps := none }]).createdObjects,
        prev.m_Id < newObj.m_Id)
  ∧ ({ m_Id := 1, m_vpsIdsUsed := ∅, m_spsIdsUsed := {0},
       m_ppsIdsUsed := ∅ } : VkParserVideoPictureParameters).m_spsIdsUsed
      ⊆ (VkParserVideoPictureParametersCreate 1 none none
          (some { m_itemType := ItemType.PPS_TYPE, nodeId := 2, parentId := 0,
                  m_updateSequenceCount := 0, m_parent := none })
          (some { m_Id := 1, m_vpsIdsUsed := ∅, m_spsIdsUsed := {0},
                  m_ppsIdsUsed := ∅ })).1.m_spsIdsUsed :=
  ⟨(pictureParameters_id_monotone
      [{ vps := none,
         sps := some { m_itemType := ItemType.SPS_TYPE, nodeId := 0,
                       parentId := 0, m_updateSequenceCount := 0,
                       m_parent := none },
         pps := none }]
      none
      (some { m_itemType := ItemType.SPS_TYPE, nodeId := 0, parentId := 0,
              m_updateSequenceCount := 1, m_parent := none })
      none 0
      { m_Id := 0, m_vpsIdsUsed := ∅, m_spsIdsUsed := ∅, m_ppsIdsUsed := ∅ }).2.2,
   (pictureParameters_id_monotone [] none none
      (some { m_itemType := ItemType.PPS_TYPE, nodeId := 2, parentId := 0,
              m_updateSequenceCount := 0, m_parent := none })
      1
      { m_Id := 1, m_vpsIdsUsed := ∅, m_spsIdsUsed := {0},
        m_ppsIdsUsed := ∅ }).2.1.2.1⟩

end VkVideoDecoder
